import Mathlib

/-!
Shallow embedding of scripts/get-gene-seq.py: a command-line tool that
resolves a gene or protein symbol to an NCBI identifier via Entrez ESearch,
downloads the matching sequence archive from the NCBI Datasets REST service,
and optionally extracts FASTA-family members from the downloaded ZIP.
Network endpoints are modelled as oracle responses supplied to the run, and
filesystem writes as association lists from path to byte list.
-/

namespace GetGeneSeq

/-- Suffix test on the underlying character lists; Python str.endswith. -/
def str_ends_with (s suf : String) : Bool :=
  suf.data.isSuffixOf s.data

/-- Prefix test on the underlying character lists; Python str.startswith. -/
def str_starts_with (s p : String) : Bool :=
  p.data.isPrefixOf s.data

/-- Python str.lower restricted to the ASCII range, which is all the script
compares. -/
def str_to_lower (s : String) : String :=
  String.mk (s.data.map Char.toLower)

/-- Errors that terminate the Python process on the modelled paths: an HTTP
error raised by raise_for_status, or the UnboundLocalError raised inside
download_gene_sequences when the url local variable was never assigned. -/
inductive PyErr where
  | httpError
  | unboundLocal
  deriving DecidableEq, Repr

/-- A transport response: a success flag (true exactly when raise_for_status
does not raise) together with the parsed body. -/
structure Response (β : Type) where
  statusOk : Bool
  body : β
  deriving DecidableEq, Repr

/-- The slice of the ESearch JSON body that the script reads: an optional
esearchresult object holding an optional idlist array. A missing field
models a JSON object without that key. -/
structure ESearchResult where
  idlist : Option (List String)
  deriving DecidableEq, Repr

/-- Body of the ESearch response as read by search_gene_symbol. -/
structure ESearchBody where
  esearchresult : Option ESearchResult
  deriving DecidableEq, Repr

/-- Line 28 of the script: r.json().get with default empty dict, then .get
with default empty list. -/
def esearch_idlist (b : ESearchBody) : List String :=
  match b.esearchresult with
  | none => []
  | some res => res.idlist.getD []

/-- Python truthiness of an optional string: None and the empty string are
falsy, every other string is truthy. -/
def py_truthy_opt : Option String → Bool
  | none => false
  | some s => !(s == "")

/-- Python f-string rendering of an optional string: None prints as the
four-letter text None. -/
def py_fstring_opt : Option String → String
  | none => "None"
  | some s => s

/-- The search term built at line 21. main always passes args.organism as
the third argument, so this slot holds the parsed option value, which is
None when the flag is omitted; the Homo sapiens default value of the Python
parameter is then never used. -/
def esearch_term (symbol : String) (organism : Option String) : String :=
  symbol ++ "[Gene Name] AND " ++ py_fstring_opt organism ++ "[Organism]"

/-- Query parameters of the ESearch request, lines 19 to 25. -/
def esearch_params (db symbol : String) (organism : Option String)
    (email apiKey : String) : List (String × String) :=
  [("db", db), ("term", esearch_term symbol organism), ("retmode", "json"),
   ("email", email), ("api_key", apiKey)]

/-- search_gene_symbol, lines 17 to 29: raise_for_status propagates a
transport failure; otherwise the first id of the parsed idlist, or None
when that list is empty. -/
def search_gene_symbol (r : Response ESearchBody) : Except PyErr (Option String) :=
  if r.statusOk then .ok (esearch_idlist r.body).head? else .error .httpError

/-- Python dict.get on a string-keyed association list. -/
def dict_get {α : Type} (d : List (String × α)) (k : String) : Option α :=
  (d.find? (fun p => p.1 == k)).map (fun p => p.2)

/-- The slice of the ESummary JSON body that the script reads: an optional
result object mapping ids to record objects mapping field names to
strings. -/
structure ESummaryBody where
  result : Option (List (String × List (String × String)))
  deriving DecidableEq, Repr

/-- Query parameters of the ESummary request, lines 32 to 36: neither the
email nor the api key appears here. -/
def esummary_params (db gene_id : String) : List (String × String) :=
  [("db", db), ("id", gene_id), ("retmode", "json")]

/-- Field selected at line 41: name for the gene database, caption for the
protein database, and the literal key NR for any other database value. -/
def summary_key (db : String) : String :=
  if db == "gene" then "name" else if db == "protein" then "caption" else "NR"

/-- The nested dictionary lookup of get_gene_symbol, lines 39 to 41. -/
def esummary_lookup (b : ESummaryBody) (gene_id db : String) : Option String :=
  dict_get ((dict_get (b.result.getD []) gene_id).getD []) (summary_key db)

/-- get_gene_symbol, lines 31 to 41: raise_for_status then the nested
lookup, which yields None when any key is absent. -/
def get_gene_symbol (gene_id db : String) (r : Response ESummaryBody) :
    Except PyErr (Option String) :=
  if r.statusOk then .ok (esummary_lookup r.body gene_id db) else .error .httpError

/-- Base URL of the NCBI Datasets REST service, line 12. -/
def NCBI_DATASETS_REST : String := "https://api.ncbi.nlm.nih.gov/datasets/v2"

/-- Annotation-type query parameters chosen by database and breadth flag,
lines 50 to 67; any other database value appends nothing. -/
def download_annot_params (db : String) (allAnnot : Bool) : List (String × String) :=
  if db == "gene" then
    if !allAnnot then [("include_annotation_type", "FASTA_GENE")]
    else [("include_annotation_type", "FASTA_GENE"),
          ("include_annotation_type", "FASTA_RNA"),
          ("include_annotation_type", "FASTA_PROTEIN")]
  else if db == "protein" then
    if !allAnnot then [("include_annotation_type", "FASTA_PROTEIN")]
    else [("include_annotation_type", "FASTA_GENE"),
          ("include_annotation_type", "FASTA_RNA"),
          ("include_annotation_type", "FASTA_PROTEIN")]
  else []

/-- The basic_params list of download_gene_sequences, lines 47 to 67: the
api key followed by the annotation-type parameters. The email is never
added here. -/
def download_basic_params (apiKey db : String) (allAnnot : Bool) :
    List (String × String) :=
  ("api_key", apiKey) :: download_annot_params db allAnnot

/-- URL selection of lines 69 to 72; none models that the url local
variable is never assigned. -/
def download_url (gene_id db : String) : Option String :=
  if db == "gene" then
    some (NCBI_DATASETS_REST ++ "/gene/id/" ++ gene_id ++ "/download")
  else if db == "protein" then
    some (NCBI_DATASETS_REST ++ "/protein/accession/" ++ gene_id ++ "/download")
  else none

/-- download_gene_sequences up to the point the GET is issued: either the
request as a pair of url and query parameters, or the UnboundLocalError
raised at line 74 when url was never assigned, which happens before any
request goes out. -/
def download_gene_sequences (gene_id db : String) (allAnnot : Bool)
    (apiKey : String) : Except PyErr (String × List (String × String)) :=
  match download_url gene_id db with
  | none => .error .unboundLocal
  | some url => .ok (url, download_basic_params apiKey db allAnnot)

/-- Python regex dollar anchor without MULTILINE: it matches at the end of
the string or just before one final newline, so a single trailing newline
is ignored by a suffix match. -/
def drop_trailing_newline (s : String) : String :=
  if str_ends_with s "\n" then String.mk s.data.dropLast else s

/-- Hand-compiled re.search of the pattern at line 87 with IGNORECASE. The
optional group of the pattern takes the values ast, n, a or empty, so a
member name matches exactly when it ends, case-insensitively and up to one
trailing newline, in one of .fasta, .fna, .faa, .fa. -/
def ext_pattern_search (member : String) : Bool :=
  [".fa", ".faa", ".fna", ".fasta"].any
    (fun suf => str_ends_with (str_to_lower (drop_trailing_newline member)) suf)

/-- os.path.basename on forward-slash archive member names: the text after
the last slash. -/
def basename (s : String) : String :=
  String.mk (s.data.foldl (fun acc c => if c == '/' then [] else acc ++ [c]) [])

/-- os.path.join on forward-slash paths as used at line 95. -/
def os_path_join (dir nm : String) : String :=
  if str_starts_with nm "/" then nm
  else if dir == "" then nm
  else if str_ends_with dir "/" then dir ++ nm
  else dir ++ "/" ++ nm

/-- One zip member: its stored name and its bytes. -/
structure ZipEntry where
  name : String
  content : List Nat
  deriving DecidableEq, Repr

/-- Opening a path in wb mode and writing: overwrite an existing file at
that path, else create it. The directory is an association list from path
to bytes, in creation order. -/
def write_file (fs : List (String × List Nat)) (k : String) (v : List Nat) :
    List (String × List Nat) :=
  if fs.any (fun p => p.1 == k) then fs.map (fun p => if p.1 == k then (k, v) else p)
  else fs ++ [(k, v)]

/-- extract_file_from_zip, lines 84 to 98: walk the members in archive
order, keep the names the pattern matches, skip empty basenames, and write
each kept member to out_dir joined with its basename. The value is the
final contents of the output directory. -/
def extract_file_from_zip (out_dir : String) (entries : List ZipEntry) :
    List (String × List Nat) :=
  entries.foldl
    (fun fs e =>
      if ext_pattern_search e.name then
        let filename := basename e.name
        if filename == "" then fs
        else write_file fs (os_path_join out_dir filename) e.content
      else fs) []

/-- check_zip_extension, lines 100 to 103: the argparse type hook attached
to the output option, run while the arguments are parsed. -/
def check_zip_extension (filename : String) : Except String String :=
  if !(str_ends_with (str_to_lower filename) ".zip") then
    .error "Output filename must end with .zip"
  else .ok filename

/-- The two environment variables read at lines 14 and 15. -/
structure Env where
  email : Option String
  api_key : Option String
  deriving DecidableEq, Repr

/-- Parsed command-line arguments that shape requests. The extract flag and
the extraction directory only govern the post-download extraction step,
which is modelled separately by extract_file_from_zip. -/
structure RawArgs where
  genes : String
  organism : Option String
  database : String
  allAnnot : Bool
  output : String
  deriving DecidableEq, Repr

/-- Oracle giving the transport responses the three endpoints would
return on this run. -/
structure Oracle where
  esearch_r : Response ESearchBody
  download_r : Response (List Nat)
  esummary_r : Response ESummaryBody
  deriving DecidableEq, Repr

/-- One outbound HTTP request of the tool, with its query parameters. -/
inductive Request where
  | esearch (params : List (String × String))
  | esummary (params : List (String × String))
  | download (url : String) (params : List (String × String))
  deriving DecidableEq, Repr

/-- Query parameters carried by a request. -/
def request_params : Request → List (String × String)
  | .esearch ps => ps
  | .esummary ps => ps
  | .download _ ps => ps

/-- Whether a request is the archive download. -/
def is_download : Request → Bool
  | .download _ _ => true
  | .esearch _ => false
  | .esummary _ => false

/-- How a run of main terminates. -/
inductive Outcome where
  | argError
  | credsExit
  | httpError
  | unboundLocal
  | ok
  deriving DecidableEq, Repr

/-- Whether a parameter list carries a query parameter with the given
key. -/
def carries_param (ps : List (String × String)) (k : String) : Bool :=
  ps.any (fun p => p.1 == k)

/-- main, lines 105 to 140, up to the optional extraction step: argument
parsing rejects a bad output name before anything else runs; missing or
empty credentials exit before any request; then the search request, and on
a truthy resolved id the download by id, else the download by the raw
symbol followed by the summary request. The value is the list of requests
issued, in order, and how the run ends. -/
def run_tool (env : Env) (a : RawArgs) (o : Oracle) : List Request × Outcome :=
  match check_zip_extension a.output with
  | .error _ => ([], .argError)
  | .ok _ =>
    if py_truthy_opt env.email && py_truthy_opt env.api_key then
      let email := env.email.getD ""
      let key := env.api_key.getD ""
      let sreq := Request.esearch (esearch_params a.database a.genes a.organism email key)
      if o.esearch_r.statusOk then
        let gid := (esearch_idlist o.esearch_r.body).head?
        if py_truthy_opt gid then
          match download_gene_sequences (gid.getD "") a.database a.allAnnot key with
          | .error _ => ([sreq], .unboundLocal)
          | .ok (url, ps) =>
            if o.download_r.statusOk then ([sreq, .download url ps], .ok)
            else ([sreq, .download url ps], .httpError)
        else
          match download_gene_sequences a.genes a.database a.allAnnot key with
          | .error _ => ([sreq], .unboundLocal)
          | .ok (url, ps) =>
            if o.download_r.statusOk then
              let mreq := Request.esummary (esummary_params a.database a.genes)
              if o.esummary_r.statusOk then ([sreq, .download url ps, mreq], .ok)
              else ([sreq, .download url ps, mreq], .httpError)
            else ([sreq, .download url ps], .httpError)
      else ([sreq], .httpError)
    else ([], .credsExit)

/-- Observable outcome of the branch of main after resolution. -/
structure MainRun where
  fetch_id : String
  fallback_invoked : Bool
  label : String
  deriving DecidableEq, Repr

/-- The branch of main after resolution, lines 121 to 133: on a truthy gene
id, download by id and print that id as the label; otherwise download by
the raw symbol, then run the summary lookup and print its result, with the
NR sentinel replacing a None result. The summary response is consulted only
on the fallback path. -/
def main_after_search (symbol db : String) (gid : Option String)
    (sumResp : Response ESummaryBody) : Except PyErr MainRun :=
  if py_truthy_opt gid then
    .ok ⟨gid.getD "", false, gid.getD ""⟩
  else
    match get_gene_symbol symbol db sumResp with
    | .error e => .error e
    | .ok summary => .ok ⟨symbol, true, summary.getD "NR"⟩

/-- Values of the repeated include_annotation_type query parameter of a
request parameter list, in order. -/
def annot_types (ps : List (String × String)) : List String :=
  (ps.filter (fun p => p.1 == "include_annotation_type")).map (fun p => p.2)

/-- C1: for every search response, search_gene_symbol returns the first
identifier of the parsed result list when that list is non-empty, the
absent value when it is empty, and fails by propagating the error on any
non-success transport response. -/
theorem search_resolves_first_id_or_none (r : Response ESearchBody) :
    (r.statusOk = false → search_gene_symbol r = .error .httpError) ∧
    (r.statusOk = true → esearch_idlist r.body = [] →
      search_gene_symbol r = .ok none) ∧
    (∀ x xs, r.statusOk = true → esearch_idlist r.body = x :: xs →
      search_gene_symbol r = .ok (some x)) := by
  constructor
  · intro h; simp [search_gene_symbol, h]
  constructor
  · intro h he; simp [search_gene_symbol, h, he]
  · intro x xs h he; simp [search_gene_symbol, h, he]

/-- Witness for C1 at a concrete successful response with a two-element
idlist: the first id is returned. -/
theorem search_resolves_first_id_or_none_witness :
    search_gene_symbol ⟨true, ⟨some ⟨some ["672", "5133"]⟩⟩⟩ = .ok (some "672") :=
  (search_resolves_first_id_or_none ⟨true, ⟨some ⟨some ["672", "5133"]⟩⟩⟩).2.2
    "672" ["5133"] rfl rfl

/-- C2: the download request carries exactly FASTA_GENE for narrow breadth
on the gene database, exactly FASTA_PROTEIN for narrow breadth on the
protein database, and exactly the three types FASTA_GENE, FASTA_RNA,
FASTA_PROTEIN for broad breadth on either database. -/
theorem download_annotation_types_exact (gid key : String) :
    (∃ u, download_gene_sequences gid "gene" false key
        = .ok (u, download_basic_params key "gene" false)) ∧
    (∃ u, download_gene_sequences gid "protein" true key
        = .ok (u, download_basic_params key "protein" true)) ∧
    annot_types (download_basic_params key "gene" false) = ["FASTA_GENE"] ∧
    annot_types (download_basic_params key "protein" false) = ["FASTA_PROTEIN"] ∧
    annot_types (download_basic_params key "gene" true)
      = ["FASTA_GENE", "FASTA_RNA", "FASTA_PROTEIN"] ∧
    annot_types (download_basic_params key "protein" true)
      = ["FASTA_GENE", "FASTA_RNA", "FASTA_PROTEIN"] :=
  ⟨⟨_, rfl⟩, ⟨_, rfl⟩, rfl, rfl, rfl, rfl⟩

/-- C3: on the archive with the three entries a/b/seq.fasta, x.txt and
dir/, extraction writes exactly one file, the destination joined with
seq.fasta, holding the bytes of the first entry; x.txt does not match the
suffix pattern, the directory entry does not match either, and the path
prefix of the matching entry is stripped to its basename. -/
theorem extract_three_entry_archive (D : String) (b1 b2 b3 : List Nat) :
    extract_file_from_zip D [⟨"a/b/seq.fasta", b1⟩, ⟨"x.txt", b2⟩, ⟨"dir/", b3⟩]
      = [(os_path_join D "seq.fasta", b1)] ∧
    ext_pattern_search "a/b/seq.fasta" = true ∧
    ext_pattern_search "x.txt" = false ∧
    ext_pattern_search "dir/" = false ∧
    basename "a/b/seq.fasta" = "seq.fasta" :=
  ⟨rfl, by decide, by decide, by decide, by decide⟩

/-- C8: on an archive with the two entries p1/g.fa then p2/g.fa, extraction
leaves exactly one file, the destination joined with g.fa, holding the
bytes of the second entry: the later member in archive order overwrites the
earlier one at the shared basename. -/
theorem extract_basename_collision_last_wins (D : String) (b1 b2 : List Nat) :
    extract_file_from_zip D [⟨"p1/g.fa", b1⟩, ⟨"p2/g.fa", b2⟩]
      = [(os_path_join D "g.fa", b2)] := by
  have h1 : ext_pattern_search "p1/g.fa" = true := by decide
  have h2 : ext_pattern_search "p2/g.fa" = true := by decide
  have hb1 : basename "p1/g.fa" = "g.fa" := by decide
  have hb2 : basename "p2/g.fa" = "g.fa" := by decide
  simp [extract_file_from_zip, write_file, h1, h2, hb1, hb2]

/-- C10: on a successful search response whose body lacks the esearchresult
key, lacks the idlist key, or holds an empty idlist, the resolver returns
the absent value, exactly as on a genuine resolution miss, and raises no
error. -/
theorem search_malformed_body_gives_none (r : Response ESearchBody)
    (h : r.statusOk = true) :
    (r.body.esearchresult = none → search_gene_symbol r = .ok none) ∧
    (∀ res : ESearchResult, r.body.esearchresult = some res → res.idlist = none →
      search_gene_symbol r = .ok none) ∧
    (∀ res : ESearchResult, r.body.esearchresult = some res → res.idlist = some [] →
      search_gene_symbol r = .ok none) := by
  constructor
  · intro he; simp [search_gene_symbol, h, esearch_idlist, he]
  constructor
  · intro res he hi; simp [search_gene_symbol, h, esearch_idlist, he, hi]
  · intro res he hi; simp [search_gene_symbol, h, esearch_idlist, he, hi]

/-- Witness for C10 at a concrete successful response missing the
esearchresult key. -/
theorem search_malformed_body_gives_none_witness :
    search_gene_symbol ⟨true, ⟨none⟩⟩ = .ok none :=
  (search_malformed_body_gives_none ⟨true, ⟨none⟩⟩ rfl).1 rfl

/-- C9: for any database value other than gene and protein, the archive
fetcher never assigns its request url and raises the unbound-name error
before issuing the download request; a whole run with such a database value
issues no download request at all. -/
theorem download_unbound_url_on_other_db (gid db : String) (b : Bool) (key : String)
    (h1 : (db == "gene") = false) (h2 : (db == "protein") = false) :
    download_gene_sequences gid db b key = .error .unboundLocal ∧
    ∀ env a o, a.database = db → ((run_tool env a o).1.any is_download) = false := by
  have herr : ∀ g b2 k, download_gene_sequences g db b2 k = .error .unboundLocal := by
    intro g b2 k
    simp [download_gene_sequences, download_url, h1, h2]
  refine ⟨herr gid b key, ?_⟩
  intro env a o hdb
  subst hdb
  rcases hzip : check_zip_extension a.output with m | s
  · simp [run_tool, hzip]
  · simp only [run_tool, hzip, herr]
    split
    · split
      · split <;> rfl
      · rfl
    · rfl

/-- Witness for C9 at the concrete database value rna: the fetcher raises
before the request, and a full run issues no download request. -/
theorem download_unbound_url_on_other_db_witness :
    download_gene_sequences "X" "rna" false "KEY" = .error .unboundLocal ∧
    ((run_tool ⟨some "user@host", some "KEY"⟩
        ⟨"BRCA1", some "Homo sapiens", "rna", false, "out.zip"⟩
        ⟨⟨true, ⟨some ⟨some ["672"]⟩⟩⟩, ⟨true, []⟩, ⟨true, ⟨none⟩⟩⟩).1.any is_download)
      = false :=
  ⟨(download_unbound_url_on_other_db "X" "rna" false "KEY" rfl rfl).1,
   (download_unbound_url_on_other_db "X" "rna" false "KEY" rfl rfl).2
     ⟨some "user@host", some "KEY"⟩
     ⟨"BRCA1", some "Homo sapiens", "rna", false, "out.zip"⟩
     ⟨⟨true, ⟨some ⟨some ["672"]⟩⟩⟩, ⟨true, []⟩, ⟨true, ⟨none⟩⟩⟩ rfl⟩

/-- C5 counterexample: the candidate a.ZIP does not end in the suffix .zip,
yet check_zip_extension accepts it unchanged, because the code lower-cases
the candidate before testing the suffix. -/
theorem check_zip_extension_case_counterexample :
    check_zip_extension "a.ZIP" = .ok "a.ZIP" ∧
    str_ends_with "a.ZIP" ".zip" = false :=
  ⟨rfl, by decide⟩

/-- C5 amended: check_zip_extension rejects a candidate exactly when its
lower-casing does not end in .zip, accepts it unchanged otherwise, and a
rejected candidate ends the run during argument parsing with no request
issued. -/
theorem check_zip_extension_spec (s : String) :
    (str_ends_with (str_to_lower s) ".zip" = false →
      check_zip_extension s = .error "Output filename must end with .zip" ∧
      ∀ env a o, a.output = s → run_tool env a o = ([], .argError)) ∧
    (str_ends_with (str_to_lower s) ".zip" = true →
      check_zip_extension s = .ok s) := by
  constructor
  · intro h
    have hc : check_zip_extension s = .error "Output filename must end with .zip" := by
      simp [check_zip_extension, h]
    refine ⟨hc, ?_⟩
    intro env a o ho
    subst ho
    unfold run_tool
    rw [hc]
  · intro h
    simp [check_zip_extension, h]

/-- Witness for C5 amended at a rejected candidate genes.txt, a full run
with that candidate, and an accepted candidate out.zip. -/
theorem check_zip_extension_spec_witness :
    check_zip_extension "genes.txt" = .error "Output filename must end with .zip" ∧
    run_tool ⟨some "user@host", some "KEY"⟩ ⟨"BRCA1", none, "gene", false, "genes.txt"⟩
        ⟨⟨true, ⟨none⟩⟩, ⟨true, []⟩, ⟨true, ⟨none⟩⟩⟩
      = ([], .argError) ∧
    check_zip_extension "out.zip" = .ok "out.zip" :=
  ⟨((check_zip_extension_spec "genes.txt").1 (by decide)).1,
   ((check_zip_extension_spec "genes.txt").1 (by decide)).2
     ⟨some "user@host", some "KEY"⟩ ⟨"BRCA1", none, "gene", false, "genes.txt"⟩
     ⟨⟨true, ⟨none⟩⟩, ⟨true, []⟩, ⟨true, ⟨none⟩⟩⟩ rfl,
   (check_zip_extension_spec "out.zip").2 (by decide)⟩

/-- C4 counterexample: a successful search response whose idlist holds one
empty-string id makes the resolver return an identifier, yet main still
takes the fallback label path, because the branch tests Python truthiness
and the empty string is falsy. -/
theorem fallback_on_empty_identifier_counterexample :
    search_gene_symbol ⟨true, ⟨some ⟨some [""]⟩⟩⟩ = .ok (some "") ∧
    main_after_search "BRCA1" "gene" (some "") ⟨true, ⟨none⟩⟩
      = .ok ⟨"BRCA1", true, "NR"⟩ :=
  ⟨rfl, rfl⟩

/-- C4 amended: when resolution yields a non-empty identifier the fallback
label path is never invoked; when it yields no identifier, or the empty
identifier, the archive is still fetched with the raw symbol in place of
the identifier and the label comes from the summary lookup, with the NR
sentinel substituted when that lookup yields nothing. -/
theorem fallback_exactly_on_falsy_identifier (symbol db : String)
    (gid : Option String) (sr : Response ESummaryBody) :
    (∀ s, gid = some s → (s == "") = false →
      main_after_search symbol db gid sr = .ok ⟨s, false, s⟩) ∧
    ((gid = none ∨ gid = some "") → sr.statusOk = true →
      main_after_search symbol db gid sr
        = .ok ⟨symbol, true, (esummary_lookup sr.body symbol db).getD "NR"⟩) := by
  constructor
  · intro s hg hs
    subst hg
    simp [main_after_search, py_truthy_opt, hs]
  · intro hg hok
    have hfalsy : py_truthy_opt gid = false := by
      rcases hg with h | h <;> subst h <;> simp [py_truthy_opt]
    simp [main_after_search, hfalsy, get_gene_symbol, hok]

/-- Witness for C4 amended: a non-empty resolved id skips the fallback, and
an absent id fetches by symbol and labels from the summary record. -/
theorem fallback_exactly_on_falsy_identifier_witness :
    main_after_search "BRCA1" "gene" (some "672") ⟨true, ⟨none⟩⟩
      = .ok ⟨"672", false, "672"⟩ ∧
    main_after_search "BRCA1" "gene" none
        ⟨true, ⟨some [("BRCA1", [("name", "BRCA1 DNA repair associated")])]⟩⟩
      = .ok ⟨"BRCA1", true,
          (esummary_lookup ⟨some [("BRCA1", [("name", "BRCA1 DNA repair associated")])]⟩
            "BRCA1" "gene").getD "NR"⟩ :=
  ⟨(fallback_exactly_on_falsy_identifier "BRCA1" "gene" (some "672")
      ⟨true, ⟨none⟩⟩).1 "672" rfl rfl,
   (fallback_exactly_on_falsy_identifier "BRCA1" "gene" none
      ⟨true, ⟨some [("BRCA1", [("name", "BRCA1 DNA repair associated")])]⟩⟩).2
     (Or.inl rfl) rfl⟩

/-- C6 counterexample: a run with valid credentials and an empty search
result issues three requests, the search, the download and the summary, and
not every one of them carries both credentials as query parameters; the
summary request carries neither credential and the download request lacks
the email. -/
theorem requests_missing_credentials_counterexample :
    (run_tool ⟨some "user@host", some "KEY"⟩
        ⟨"BRCA1", some "Homo sapiens", "gene", false, "ncbi_genes.zip"⟩
        ⟨⟨true, ⟨some ⟨some []⟩⟩⟩, ⟨true, []⟩, ⟨true, ⟨none⟩⟩⟩).1.length = 3 ∧
    ((run_tool ⟨some "user@host", some "KEY"⟩
        ⟨"BRCA1", some "Homo sapiens", "gene", false, "ncbi_genes.zip"⟩
        ⟨⟨true, ⟨some ⟨some []⟩⟩⟩, ⟨true, []⟩, ⟨true, ⟨none⟩⟩⟩).1.all
      (fun r => carries_param (request_params r) "email"
        && carries_param (request_params r) "api_key")) = false ∧
    carries_param (esummary_params "gene" "BRCA1") "email" = false ∧
    carries_param (esummary_params "gene" "BRCA1") "api_key" = false ∧
    carries_param (download_basic_params "KEY" "gene" false) "email" = false :=
  ⟨rfl, rfl, rfl, rfl, rfl⟩

/-- C6 amended: the search request carries both the email and the api key
as query parameters; the download request carries the api key but never the
email; the summary request carries neither credential. -/
theorem request_credentials_by_endpoint (db symbol gid email key : String)
    (organism : Option String) (allAnnot : Bool) :
    carries_param (esearch_params db symbol organism email key) "email" = true ∧
    carries_param (esearch_params db symbol organism email key) "api_key" = true ∧
    carries_param (download_basic_params key db allAnnot) "api_key" = true ∧
    carries_param (download_basic_params key db allAnnot) "email" = false ∧
    carries_param (esummary_params db gid) "email" = false ∧
    carries_param (esummary_params db gid) "api_key" = false := by
  refine ⟨rfl, rfl, rfl, ?_, rfl, rfl⟩
  cases hg : db == "gene" <;> cases hp : db == "protein" <;> cases allAnnot <;>
    simp [carries_param, download_basic_params, download_annot_params, hg, hp]

/-- C7: code-bug witness. main always passes args.organism to the resolver,
so when the organism option is omitted the search term carries the Python
text None as the organism filter and the documented Homo sapiens default of
search_gene_symbol is never applied; a full run with the option omitted
issues the search request built from the absent organism. -/
theorem organism_default_not_applied :
    esearch_term "BRCA1" none = "BRCA1[Gene Name] AND None[Organism]" ∧
    esearch_term "BRCA1" none ≠ esearch_term "BRCA1" (some "Homo sapiens") ∧
    ("term", "BRCA1[Gene Name] AND None[Organism]")
      ∈ esearch_params "gene" "BRCA1" none "user@host" "KEY" ∧
    (run_tool ⟨some "user@host", some "KEY"⟩
        ⟨"BRCA1", none, "gene", false, "ncbi_genes.zip"⟩
        ⟨⟨true, ⟨some ⟨some ["672"]⟩⟩⟩, ⟨true, []⟩, ⟨true, ⟨none⟩⟩⟩).1
      = [.esearch (esearch_params "gene" "BRCA1" none "user@host" "KEY"),
         .download (NCBI_DATASETS_REST ++ "/gene/id/" ++ "672" ++ "/download")
           (download_basic_params "KEY" "gene" false)] :=
  ⟨rfl, by decide, by decide, rfl⟩

end GetGeneSeq
